import Mathlib

/-!
Verification of the socialEngageAI ML pipeline (src/ml) against its
natural-language specification.

The embedding models:
  * `DataProcessor._extract_hashtag_features` (src/ml/src/preprocessing/data_processor.py)
  * the engagement-level bucketing in `EngagementModel.predict`
    (src/ml/src/models/engagement_model.py, `pd.cut` with bins `[0, 50, 200, inf]`)
  * the confidence-score computation of `predict_engagement` (src/ml/src/main.py)
  * the serve-time column reconciliation of `predict_engagement`
  * `EngagementModel.predict` / `save` / `load` / `get_feature_importance`
  * `EngagementModel.recommend_post_time`
  * `FeatureEngineering.transform` / `load` and the serving adapter's fallback

Numeric values are modelled as rationals (`ℚ`); pandas frames on the serving
path carry a single row and are modelled as association lists from column
name to value.  Python exceptions are modelled with `Except`/`Option`, and
filesystem artifact stores as partial maps `String → Option _`.
-/

namespace SocialEngageAI

/-! ## Python string primitives

`str.split(',')` and `str.strip()` re-implemented over character lists so
that concrete inputs evaluate inside the kernel. -/

/-- Helper for `pySplitComma`: splits the remaining characters at commas,
`cur` accumulating the current (reversed) segment. -/
def splitAux : List Char → List Char → List (List Char)
  | [], cur => [cur.reverse]
  | c :: rest, cur =>
      if c = ',' then cur.reverse :: splitAux rest []
      else splitAux rest (c :: cur)

/-- Python `s.split(',')`: segments between commas, including empty ones;
one segment per comma plus one. -/
def pySplitComma (s : String) : List String :=
  (splitAux s.data []).map String.mk

/-- Python `s.strip()`: remove leading and trailing whitespace. -/
def pyStrip (s : String) : String :=
  String.mk
    (((s.data.dropWhile Char.isWhitespace).reverse.dropWhile
        Char.isWhitespace).reverse)

/-! ## Hashtag feature extraction

`DataProcessor._extract_hashtag_features` (data_processor.py lines 152-169):
`hashtag_count = len(x.split(','))` when `x` is a non-empty string else 0;
`avg_hashtag_length = np.mean([len(tag.strip()) for tag in x.split(',')])`
when `x` is a non-empty string else 0.  A missing value (`NaN`) is not a
`str`, hence the `Option String` input with `none` for missing. -/

/-- `len(x.split(','))` for a non-empty string `x`, else `0`
(`isinstance(x, str) and x` guard in the source). -/
def hashtag_count (x : Option String) : Nat :=
  match x with
  | some s => if s ≠ "" then (pySplitComma s).length else 0
  | none => 0

/-- Mean of a list of rationals, `np.mean`: sum divided by length. -/
def meanQ (l : List ℚ) : ℚ := l.sum / (l.length : ℚ)

/-- `np.mean([len(tag.strip()) for tag in x.split(',')])` for non-empty
string `x`, else `0`. -/
def avg_hashtag_length (x : Option String) : ℚ :=
  match x with
  | some s =>
      if s ≠ "" then
        meanQ ((pySplitComma s).map (fun tag => ((pyStrip tag).length : ℚ)))
      else 0
  | none => 0

/-! ## Engagement-level bucketing

`EngagementModel.predict` (engagement_model.py lines 341-348) labels the
summed prediction with `pd.cut(total, bins=[0, 50, 200, inf],
labels=['low', 'medium', 'high'])`.  `pd.cut` uses right-closed,
left-open intervals `(0,50], (50,200], (200,inf]`; a total that falls in
no bin (here: any total `≤ 0`) is mapped to `NaN`, modelled as `none`. -/

/-- The `pd.cut` bucketing of the summed prediction used by
`EngagementModel.predict`: `(0,50] ↦ low`, `(50,200] ↦ medium`,
`(200,∞) ↦ high`, anything else (`total ≤ 0`) falls outside every bin. -/
def engagement_level (total : ℚ) : Option String :=
  if 0 < total ∧ total ≤ 50 then some "low"
  else if 50 < total ∧ total ≤ 200 then some "medium"
  else if 200 < total then some "high"
  else none

/-- Spec-side restatement of the amended bucketing for comparison:
a total `≤ 0` receives no label, `(0,50]` is low, `(50,200]` is medium,
above `200` is high. -/
def engagementLevelSpec (total : ℚ) : Option String :=
  if total ≤ 0 then none
  else if total ≤ 50 then some "low"
  else if total ≤ 200 then some "medium"
  else some "high"

/-! ## Engagement model state and predict/save/load -/

/-- A fitted multi-target regressor: feature matrix (list of rows) to one
`(likes, shares, comments)` triple per row.  Abstract — the concrete tree
ensembles are opaque to this development. -/
def Regressor : Type := List (List ℚ) → List (ℚ × ℚ × ℚ)

/-- One row of the prediction frame returned by `EngagementModel.predict`:
the three targets plus the derived `engagement_level` label
(`none` = `NaN` from `pd.cut`). -/
structure PredRow where
  likes : ℚ
  shares : ℚ
  comments : ℚ
  level : Option String
  deriving DecidableEq, Repr

/-- Per-target metric record stored by `_calculate_metrics`. -/
structure MetricVals where
  mse : ℚ
  rmse : ℚ
  mae : ℚ
  r2 : ℚ
  deriving DecidableEq, Repr

/-- `self.metrics`: dataset-type (`"train"`/`"val"`) to target-name
(including `"average"`) to metric record. -/
def Metrics : Type := List (String × List (String × MetricVals))

/-- The metadata artifact written by `EngagementModel.save`
(engagement_model.py lines 446-453). -/
structure ModelMetadata where
  model_type : String
  feature_names : Option (List String)
  target_names : List String
  metrics : Metrics
  feature_importance : List (String × ℚ)

/-- The mutable state of an `EngagementModel` instance
(engagement_model.py `__init__`): `model = None` until trained or loaded. -/
structure EngagementModel where
  model_type : String
  model : Option Regressor
  feature_names : Option (List String)
  target_names : List String
  metrics : Metrics
  feature_importance : List (String × ℚ)

/-- The freshly constructed (Uninitialized) model state:
`EngagementModel.__init__` with no training and no load. -/
def EngagementModel.initState : EngagementModel :=
  { model_type := "xgboost"
    model := none
    feature_names := none
    target_names := ["likes", "shares", "comments"]
    metrics := []
    feature_importance := [] }

/-- `EngagementModel.predict` (engagement_model.py lines 317-350): raises
`ValueError("Model not trained. Call train() first.")` when `self.model is
None`; otherwise predicts and appends the `engagement_level` column. -/
def EngagementModel.predict (m : EngagementModel) (X : List (List ℚ)) :
    Except String (List PredRow) :=
  match m.model with
  | none => .error "Model not trained. Call train() first."
  | some f =>
      .ok ((f X).map (fun p =>
        { likes := p.1, shares := p.2.1, comments := p.2.2
          level := engagement_level (p.1 + p.2.1 + p.2.2) }))

/-- `EngagementModel.save` (engagement_model.py lines 429-459): raises the
same `ValueError` when untrained; otherwise writes the model artifact and
the metadata artifact (returned here as the pair of artifact payloads). -/
def EngagementModel.save (m : EngagementModel) :
    Except String (Regressor × ModelMetadata) :=
  match m.model with
  | none => .error "Model not trained. Call train() first."
  | some f =>
      .ok (f, { model_type := m.model_type
                feature_names := m.feature_names
                target_names := m.target_names
                metrics := m.metrics
                feature_importance := m.feature_importance })

/-- `EngagementModel.get_feature_importance` (engagement_model.py lines
498-502): no trained-model check; truncates the stored importance map to
`top_n` entries when given, else returns it whole. -/
def EngagementModel.get_feature_importance (m : EngagementModel)
    (top_n : Option Nat) : List (String × ℚ) :=
  match top_n with
  | some n => m.feature_importance.take n
  | none => m.feature_importance

/-- `EngagementModel.load` (engagement_model.py lines 461-492) as a state
transformer.  The artifact stores are partial maps from the caller-supplied
identifier to the artifact payload (`none` = file absent).  The source
checks `os.path.exists` on the model path and then on the metadata path
before loading either; on success it overwrites the regressor and all
metadata-derived fields.  Returns the new state paired with the error
message, if any (`FileNotFoundError`). -/
def EngagementModel.load (m : EngagementModel)
    (modelStore : String → Option Regressor)
    (metaStore : String → Option ModelMetadata)
    (filename : String) : EngagementModel × Option String :=
  match modelStore filename with
  | none => (m, some ("Model file not found: " ++ filename))
  | some f =>
      match metaStore filename with
      | none => (m, some ("Metadata file not found: " ++ filename))
      | some md =>
          ({ model_type := md.model_type
             model := some f
             feature_names := md.feature_names
             target_names := md.target_names
             metrics := md.metrics
             feature_importance := md.feature_importance }, none)

/-! ## Confidence score (main.py `predict_engagement`, lines 268-366)

The serving endpoint computes `confidence_score = clamp(base * data_quality
* prediction_confidence, 0.5, 0.95)`, with a fallback constant `0.7` when
the computation raises.  Multipliers are exact decimal constants, modelled
as rationals.  `np.std` appears only through the comparison
`cv = std/mean > 1.0` under `mean > 0`; since `std ≥ 0`, that comparison is
equivalent to `variance > mean²`, which is how it is written here (no square
roots over `ℚ`). -/

/-- The request fields the confidence computation reads
(`post_data.dict()` in main.py). -/
structure PostInput where
  post_text : String
  hashtags : String
  followers_count : Int
  following_count : Int
  account_age : Int

/-- Look up `metrics[ds][target]` (Python `in`-guarded dict access). -/
def lookupMetric (ms : Metrics) (ds target : String) : Option MetricVals :=
  match ms.find? (fun p => p.1 = ds) with
  | none => none
  | some (_, per) =>
      match per.find? (fun p => p.1 = target) with
      | none => none
      | some (_, mv) => some mv

/-- Base confidence (main.py lines 276-279):
`max(0.5, min(0.9, metrics['val']['average']['r2']))` when present,
else the default `0.7`. -/
def baseConfidence (ms : Metrics) : ℚ :=
  match lookupMetric ms "val" "average" with
  | some mv => max (1/2) (min (9/10) mv.r2)
  | none => 7/10

/-- Data-quality multiplier (main.py lines 284-319): degraded by short/long
text, extreme follower/following ratios, new accounts, and many hashtags. -/
def dataQualityScore (p : PostInput) : ℚ :=
  let s1 : ℚ := 1
  let s2 :=
    if p.post_text.length < 10 then s1 * (9/10)
    else if p.post_text.length > 500 then s1 * (19/20)
    else s1
  let s3 :=
    if p.followers_count > 0 ∧ p.following_count > 0 then
      let ratio : ℚ := (p.followers_count : ℚ) / (p.following_count : ℚ)
      if ratio > 100 then s2 * (9/10)
      else if ratio < 1/100 then s2 * (9/10)
      else s2
    else s2
  let s4 := if p.account_age < 30 then s3 * (9/10) else s3
  let hc := if p.hashtags ≠ "" then (pySplitComma p.hashtags).length else 0
  if hc > 10 then s4 * (19/20) else s4

/-- Prediction-stability multiplier (main.py lines 325-350): degraded when
the coefficient of variation across the three targets exceeds 1 (stated as
`variance > mean²` under `mean > 0`), or when the mean prediction is
implausibly large (`> 1000`) or small (`< 5`). -/
def predictionConfidence (likes shares comments : ℚ) : ℚ :=
  let m := (likes + shares + comments) / 3
  let variance := ((likes - m)^2 + (shares - m)^2 + (comments - m)^2) / 3
  let c1 : ℚ := if m > 0 ∧ variance > m^2 then 1 * (9/10) else 1
  if m > 1000 then c1 * (9/10)
  else if m < 5 then c1 * (9/10)
  else c1

/-- Final confidence (main.py lines 356-359): product of the three factors
clamped into `[0.5, 0.95]`. -/
def confidence_score (ms : Metrics) (p : PostInput)
    (likes shares comments : ℚ) : ℚ :=
  max (1/2) (min (19/20)
    (baseConfidence ms * dataQualityScore p
      * predictionConfidence likes shares comments))

/-- Fallback confidence when the computation raises (main.py line 366). -/
def fallbackConfidence : ℚ := 7/10

/-! ## Serve-time column reconciliation (main.py lines 232-249)

A single-row frame is an association list column-name ↦ value.  When the
loaded model has a non-empty `feature_names` list, every trained-with name
missing from the computed frame is appended with value `0`
(`features[feature] = 0`), then `features[engagement_model.feature_names]`
selects exactly those columns in that order (dropping extras). -/

/-- A single-row pandas frame: association list of column name and value. -/
abbrev Row : Type := List (String × ℚ)

/-- First value bound to column `n` in the row, if any
(pandas column lookup). -/
def colVal (r : Row) (n : String) : Option ℚ :=
  (r.find? (fun p => p.1 = n)).map (fun p => p.2)

/-- The zero-fill step: `for feature in missing_features:
features[feature] = 0` — append a zero column for every trained-with
name absent from the frame. -/
def fillMissing (fn : List String) (r : Row) : Row :=
  r ++ (fn.filter (fun n => (colVal r n).isNone)).map (fun n => (n, (0 : ℚ)))

/-- The selection step `features[feature_names]`: take the named columns
in the given order (all present after `fillMissing`; an absent name would
be a pandas `KeyError`, represented by the dead default `0`). -/
def selectCols (fn : List String) (r : Row) : Row :=
  fn.map (fun n => (n, (colVal r n).getD 0))

/-- The reconciliation block of `predict_engagement`
(main.py lines 232-249), guarded by the truthiness of
`engagement_model.feature_names` (`None` or `[]` skips it). -/
def reconcile_features (ofn : Option (List String)) (r : Row) : Row :=
  match ofn with
  | none => r
  | some fn => if fn = [] then r else selectCols fn (fillMissing fn r)

/-! ## Feature transform pipeline (feature_engineering.py)

The fitted preprocessor is abstract (`Row → Option Row`, `none` modelling a
raised exception).  `transform` on an unfitted pipeline logs a warning and
returns the empty frame `pd.DataFrame()` (lines 89-91) — it does not
raise.  `load` (lines 166-189) wraps everything in `try/except` and
returns a bare `True`/`False`. -/

/-- An abstract fitted preprocessor applied to a single-row frame;
`none` models a raised exception. -/
def Preprocessor : Type := Row → Option Row

/-- The persisted payload of `FeatureEngineering.save`: the five instance
attributes. -/
structure FEData where
  preprocessor : Option Preprocessor
  tfidf_vectorizer : Option Preprocessor
  numerical_features : List String
  categorical_features : List String
  text_feature : String

/-- The mutable state of a `FeatureEngineering` instance. -/
structure FeatureEngineering where
  preprocessor : Option Preprocessor
  tfidf_vectorizer : Option Preprocessor
  numerical_features : List String
  categorical_features : List String
  text_feature : String

/-- A freshly constructed, unfitted pipeline
(`FeatureEngineering.__init__`, lines 16-28). -/
def FeatureEngineering.initState : FeatureEngineering :=
  { preprocessor := none
    tfidf_vectorizer := none
    numerical_features :=
      ["followers_count", "following_count", "account_age",
       "text_length", "word_count", "avg_word_length",
       "sentiment_compound", "sentiment_positive", "sentiment_negative",
       "sentiment_neutral", "mention_count", "url_count",
       "exclamation_count", "question_count",
       "hashtag_count", "avg_hashtag_length", "follower_following_ratio",
       "hour_of_day", "day_of_week", "month"]
    categorical_features := ["media_type", "time_category", "is_weekend"]
    text_feature := "post_text" }

/-- `FeatureEngineering.transform` (lines 81-115): with no fitted
preprocessor it returns the empty frame `pd.DataFrame()` (with a warning);
with one, it applies the frozen transformation (`some` result) or raises
(`none`). -/
def FeatureEngineering.transform (fe : FeatureEngineering) (df : Row) :
    Option Row :=
  match fe.preprocessor with
  | none => some []
  | some p => p df

/-- `df.fillna(0)`: over `ℚ` (no `NaN`) this leaves the row unchanged. -/
def fillna0 (r : Row) : Row := r

/-- The serving adapter's transform step (main.py lines 207-217): if the
pipeline is unfitted (`preprocessor is None`), fall back to the raw frame
with a warning — `transform` is never called; otherwise call `transform`
and fall back to the raw frame if it raises. -/
def serveFeatures (fe : FeatureEngineering) (processed : Row) : Row :=
  match fe.preprocessor with
  | none => fillna0 processed
  | some _ =>
      match fe.transform processed with
      | some r => r
      | none => fillna0 processed

/-- `FeatureEngineering.load` (lines 166-189): the whole body is inside
`try/except`; the artifact store maps a filepath to the persisted payload
(`none` = missing file or any other load failure).  Returns the new state
and the boolean result — `True` on success, `False` on any failure, never
an exception. -/
def FeatureEngineering.load (fe : FeatureEngineering)
    (store : String → Option FEData) (filepath : String) :
    FeatureEngineering × Bool :=
  match store filepath with
  | none => (fe, false)
  | some d =>
      ({ preprocessor := d.preprocessor
         tfidf_vectorizer := d.tfidf_vectorizer
         numerical_features := d.numerical_features
         categorical_features := d.categorical_features
         text_feature := d.text_feature }, true)

/-! ## Post-time recommendation (engagement_model.py lines 352-427)

`recommend_post_time` takes the single-row feature array and the feature
column list; it grid-searches day `0..6` × hour `0..23`, overwriting the
`hour_of_day` and `day_of_week` positions, re-predicting each time, keeping
the strictly best total; then converts the winner to the next calendar
occurrence of that weekday/hour.

Control flow modelled exactly:
  * `hour_of_day`/`day_of_week` not in the columns → returns `None`
    (warning), the graceful path;
  * any exception inside the grid loop (index out of range, empty
    prediction) is caught and returns `None`;
  * if no combination strictly beats the initial `best_engagement = -1`,
    `best_day`/`best_hour` stay `None` and line 421
    (`(best_day - now.weekday()) % 7`) raises an uncaught `TypeError` —
    a distinct outcome, `raised`.

Wall-clock datetimes are modelled as a day count from an epoch plus a
second-of-day; the epoch day (1970-01-01) has Python weekday 3
(Thursday). -/

/-- A naive local datetime: days since 1970-01-01 and seconds within the
day. -/
structure NaiveTime where
  day : Nat
  sec : Nat
  deriving DecidableEq, Repr

/-- Python `datetime.weekday()` (Monday = 0); 1970-01-01 was a Thursday. -/
def NaiveTime.wd (t : NaiveTime) : Nat := (t.day + 3) % 7

/-- The hour component. -/
def NaiveTime.hour (t : NaiveTime) : Nat := t.sec / 3600

/-- Absolute time in seconds, for comparing datetimes. -/
def NaiveTime.timeAbs (t : NaiveTime) : Nat := t.day * 86400 + t.sec

/-- The outcome of `recommend_post_time`: a returned datetime, a `None`
return (no recommendation), or an uncaught exception. -/
inductive RecommendResult where
  | ok (t : NaiveTime)
  | noRec
  | raised
  deriving DecidableEq, Repr

/-- The 168 `(day, hour)` combinations, in the loop order of the source
(day outer `0..6`, hour inner `0..23`). -/
def combos : List (Nat × Nat) :=
  (List.range 7).flatMap (fun d => (List.range 24).map (fun h => (d, h)))

/-- One grid point's total predicted engagement:
`X_copy[:, hour_idx] = hour; X_copy[:, day_idx] = day;
np.sum(self.model.predict(X_copy)[0])`.  `none` models an exception
(empty prediction list → `IndexError` on `predictions[0]`). -/
def totalAt (f : Regressor) (row : List ℚ) (hourIdx dayIdx : Nat)
    (dh : Nat × Nat) : Option ℚ :=
  match f [(row.set hourIdx (dh.2 : ℚ)).set dayIdx (dh.1 : ℚ)] with
  | [] => none
  | p :: _ => some (p.1 + p.2.1 + p.2.2)

/-- One iteration of the grid loop (lines 397-414): keep the new
combination exactly when its total strictly beats the best so far. -/
def searchStep (f : Regressor) (row : List ℚ) (hourIdx dayIdx : Nat)
    (acc : ℚ × Option (Nat × Nat)) (dh : Nat × Nat) :
    Option (ℚ × Option (Nat × Nat)) :=
  match totalAt f row hourIdx dayIdx dh with
  | none => none
  | some t => some (if acc.1 < t then (t, some dh) else acc)

/-- The grid-search loop (lines 390-414): start from
`best_engagement = -1`, `best = None`, fold over the 168 combinations.
`none` propagates an exception out of the loop (caught by the source,
which then returns `None`). -/
def searchBest (f : Regressor) (row : List ℚ) (hourIdx dayIdx : Nat) :
    Option (ℚ × Option (Nat × Nat)) :=
  combos.foldlM (searchStep f row hourIdx dayIdx)
    ((-1 : ℚ), (none : Option (Nat × Nat)))

/-- `days_ahead` (lines 421-423): `(best_day - now.weekday()) % 7`, bumped
to `7` when zero and the best hour has already begun today
(`now.hour >= best_hour`). -/
def daysAhead (now : NaiveTime) (bestDay bestHour : Nat) : Nat :=
  let d0 := (((bestDay : Int) - (now.wd : Int)) % 7).toNat
  if d0 = 0 ∧ bestHour ≤ now.hour then 7 else d0

/-- The recommended datetime (line 425):
`now.replace(hour=best_hour, minute=0, second=0, microsecond=0)
 + Timedelta(days=days_ahead)`. -/
def mkRecommended (now : NaiveTime) (bestDay bestHour : Nat) : NaiveTime :=
  { day := now.day + daysAhead now bestDay bestHour
    sec := bestHour * 3600 }

/-- `EngagementModel.recommend_post_time` on a single-row input.
`f` is the fitted regressor, `row` the feature values, `featureCols` the
feature-name list (`engagement_model.feature_names` at the call site in
main.py). -/
def recommend_post_time (f : Regressor) (row : List ℚ)
    (featureCols : List String) (now : NaiveTime) : RecommendResult :=
  if "hour_of_day" ∉ featureCols ∨ "day_of_week" ∉ featureCols then
    .noRec
  else
    let hourIdx := featureCols.indexOf "hour_of_day"
    let dayIdx := featureCols.indexOf "day_of_week"
    if row.length ≤ hourIdx ∨ row.length ≤ dayIdx then
      .noRec
    else
      match searchBest f row hourIdx dayIdx with
      | none => .noRec
      | some (_, none) => .raised
      | some (_, some (bd, bh)) => .ok (mkRecommended now bd bh)

/-! ## Concrete instances used as evaluation inputs -/

/-- A regressor predicting `(0, 0, 0)` for every row (a perfectly possible
fitted model output). -/
def zeroRegressor : Regressor := fun X => X.map (fun _ => (0, 0, 0))

/-- A regressor predicting `(1, 1, 1)` for every row. -/
def constRegressor : Regressor :=
  fun X => X.map (fun _ => ((1 : ℚ), (1 : ℚ), (1 : ℚ)))

/-- A trained model state whose regressor predicts all-zero targets. -/
def demoTrainedModel : EngagementModel :=
  { EngagementModel.initState with
      model := some zeroRegressor
      feature_names := some ["hour_of_day"] }

/-- The grid-search accumulator reached after the first combination under
`constRegressor`: total `3` at `(day 0, hour 0)`. -/
def bestAcc : ℚ × Option (Nat × Nat) := (3, some (0, 0))

/-- The prediction row produced by `zeroRegressor`: all-zero targets and,
because the summed prediction `0` falls outside every `pd.cut` bin, a
missing engagement level. -/
def zeroPredRow : PredRow :=
  { likes := 0, shares := 0, comments := 0, level := none }

/-! # Theorems -/

/-! ## C8: hashtag feature extraction -/

/-- C8: hashtag extraction from the comma-separated hashtags string yields
`hashtag_count` = number of comma-separated segments and
`avg_hashtag_length` = mean of the trimmed segment lengths; both are `0`
for an empty or missing string; the input `"innovation,tech"` yields
count `2` and average length `7`. -/
theorem hashtag_features_spec :
    (∀ s : String, s ≠ "" →
        hashtag_count (some s) = (pySplitComma s).length ∧
        avg_hashtag_length (some s)
          = meanQ ((pySplitComma s).map (fun tag => ((pyStrip tag).length : ℚ)))) ∧
    hashtag_count none = 0 ∧ avg_hashtag_length none = 0 ∧
    hashtag_count (some "") = 0 ∧ avg_hashtag_length (some "") = 0 ∧
    hashtag_count (some "innovation,tech") = 2 ∧
    avg_hashtag_length (some "innovation,tech") = 7 := by
  refine ⟨fun s hs => ⟨?_, ?_⟩, rfl, rfl, rfl, rfl, by decide, ?_⟩
  · simp [hashtag_count, hs]
  · simp [avg_hashtag_length, hs]
  · have hsplit : pySplitComma "innovation,tech" = ["innovation", "tech"] := by
      decide
    have h10 : (pyStrip "innovation").length = 10 := by decide
    have h4 : (pyStrip "tech").length = 4 := by decide
    have hne : ("innovation,tech" : String) ≠ "" := by decide
    rw [avg_hashtag_length, if_pos hne, hsplit]
    simp [meanQ, h10, h4]
    norm_num

/-- Witness for C8: the general characterization applied at the concrete
input of the spec example. -/
theorem hashtag_features_spec_witness :
    hashtag_count (some "innovation,tech")
        = (pySplitComma "innovation,tech").length ∧
    avg_hashtag_length (some "innovation,tech")
      = meanQ ((pySplitComma "innovation,tech").map
          (fun tag => ((pyStrip tag).length : ℚ))) :=
  hashtag_features_spec.1 "innovation,tech" (by decide)

/-! ## C7: engagement-level bucketing -/

/-- The `pd.cut` bucketing agrees with the amended spec-side description:
a total `≤ 0` receives no label, `(0,50]` is low, `(50,200]` is medium,
above `200` is high. -/
theorem engagement_level_eq_spec (s : ℚ) :
    engagement_level s = engagementLevelSpec s := by
  unfold engagement_level engagementLevelSpec
  rcases le_or_lt s 0 with h0 | h0
  · have hA : ¬(0 < s ∧ s ≤ 50) := by rintro ⟨h, -⟩; linarith
    have hB : ¬(50 < s ∧ s ≤ 200) := by rintro ⟨h, -⟩; linarith
    have hC : ¬(200 < s) := by linarith
    simp [hA, hB, hC, h0]
  · rcases le_or_lt s 50 with h50 | h50
    · have hA : 0 < s ∧ s ≤ 50 := ⟨h0, h50⟩
      have hD : ¬ s ≤ 0 := by linarith
      simp [hA, hD, h50]
    · rcases le_or_lt s 200 with h200 | h200
      · have hA : ¬(0 < s ∧ s ≤ 50) := by rintro ⟨-, h⟩; linarith
        have hB : 50 < s ∧ s ≤ 200 := ⟨h50, h200⟩
        have hD : ¬ s ≤ 0 := by linarith
        have hE : ¬ s ≤ 50 := by linarith
        simp [hA, hB, hD, hE, h200]
      · have hA : ¬(0 < s ∧ s ≤ 50) := by rintro ⟨-, h⟩; linarith
        have hB : ¬(50 < s ∧ s ≤ 200) := by rintro ⟨-, h⟩; linarith
        have hC : 200 < s := h200
        have hD : ¬ s ≤ 0 := by linarith
        have hE : ¬ s ≤ 50 := by linarith
        have hF : ¬ s ≤ 200 := by linarith
        simp [hA, hB, hC, hD, hE, hF]

/-- Counterexample to C7 as stated: a prediction row whose targets sum to
`0` (which the claim places in the low bucket) receives no label at all —
`pd.cut` with bins `[0, 50, 200, inf]` is left-open at `0`, so the summed
prediction `0` maps to `NaN` (`none`), not to `"low"`. -/
theorem predict_zero_sum_has_no_label :
    demoTrainedModel.predict [[0]]
      = .ok [{ likes := 0, shares := 0, comments := 0, level := none }] := by
  have h0 : engagement_level (0 : ℚ) = none := by
    unfold engagement_level
    norm_num
  simp [demoTrainedModel, EngagementModel.predict, EngagementModel.initState,
    zeroRegressor, h0]

/-- C7 amended: every prediction row carries
`engagement_level = none` (missing) when the summed targets are `≤ 0`,
`"low"` on `(0,50]`, `"medium"` on `(50,200]` and `"high"` above `200`. -/
theorem predict_engagement_level_buckets (m : EngagementModel)
    (X : List (List ℚ)) (rows : List PredRow)
    (h : m.predict X = .ok rows) :
    ∀ r ∈ rows, r.level = engagementLevelSpec (r.likes + r.shares + r.comments) := by
  intro r hr
  unfold EngagementModel.predict at h
  cases hm : m.model with
  | none => rw [hm] at h; exact absurd h (by simp)
  | some f =>
      rw [hm] at h
      have hrows : rows = (f X).map (fun p =>
          ({ likes := p.1, shares := p.2.1, comments := p.2.2
             level := engagement_level (p.1 + p.2.1 + p.2.2) } : PredRow)) := by
        cases h; rfl
      subst hrows
      obtain ⟨p, -, hp⟩ := List.mem_map.mp hr
      subst hp
      exact engagement_level_eq_spec _

/-- Witness for C7: the amended bucketing applied to a concrete prediction
output. -/
theorem predict_engagement_level_buckets_witness :
    zeroPredRow.level = engagementLevelSpec
        (zeroPredRow.likes + zeroPredRow.shares + zeroPredRow.comments) :=
  predict_engagement_level_buckets demoTrainedModel [[0]] [zeroPredRow]
    (by
      have h0 : engagement_level (0 : ℚ) = none := by
        unfold engagement_level
        norm_num
      simp [demoTrainedModel, EngagementModel.predict,
        EngagementModel.initState, zeroRegressor, zeroPredRow, h0])
    zeroPredRow (List.mem_cons_self zeroPredRow [])

/-! ## C3: behavior of predict / save / get_feature_importance on an
Uninitialized model -/

/-- Counterexample to C3 as stated: on the freshly constructed
(never trained, never loaded) model, `get_feature_importance` does not
fail — it returns the stored (empty) importance mapping.  The source has
no trained-model guard in `get_feature_importance`
(engagement_model.py lines 498-502). -/
theorem get_feature_importance_untrained_returns :
    EngagementModel.initState.get_feature_importance (some 10) = [] := rfl

/-- C3 amended: on a model whose fitted regressor is absent, `predict` and
`save` fail immediately with the "not trained" error, while
`get_feature_importance` returns normally (the empty mapping for the
pristine initial state). -/
theorem untrained_model_behavior (m : EngagementModel) (X : List (List ℚ))
    (top_n : Option Nat) (h : m.model = none) :
    m.predict X = .error "Model not trained. Call train() first." ∧
    m.save = .error "Model not trained. Call train() first." ∧
    EngagementModel.initState.get_feature_importance top_n = [] := by
  refine ⟨?_, ?_, ?_⟩
  · unfold EngagementModel.predict
    rw [h]
  · unfold EngagementModel.save
    rw [h]
  · cases top_n <;>
      simp [EngagementModel.get_feature_importance, EngagementModel.initState]

/-- Witness for C3 (amended): the untrained behavior evaluated on the
initial state. -/
theorem untrained_model_behavior_witness :
    EngagementModel.initState.predict [[0]]
        = .error "Model not trained. Call train() first." ∧
    EngagementModel.initState.save
        = .error "Model not trained. Call train() first." ∧
    EngagementModel.initState.get_feature_importance (some 10) = [] :=
  untrained_model_behavior EngagementModel.initState [[0]] (some 10) rfl

/-! ## C9: model load fails on a missing artifact without partial restore -/

/-- C9: if either the model-weights artifact or the metadata artifact is
absent, `load` fails with a not-found error and the model state is
unchanged (no partial restore); when both are present, the regressor and
all metadata fields are restored from them. -/
theorem load_no_partial_restore (m : EngagementModel)
    (modelStore : String → Option Regressor)
    (metaStore : String → Option ModelMetadata) (fn : String) :
    (modelStore fn = none ∨ metaStore fn = none →
        (m.load modelStore metaStore fn).1 = m ∧
        ((m.load modelStore metaStore fn).2).isSome) ∧
    (∀ f md, modelStore fn = some f → metaStore fn = some md →
        m.load modelStore metaStore fn =
          ({ model_type := md.model_type
             model := some f
             feature_names := md.feature_names
             target_names := md.target_names
             metrics := md.metrics
             feature_importance := md.feature_importance }, none)) := by
  constructor
  · intro habs
    unfold EngagementModel.load
    cases hms : modelStore fn with
    | none => exact ⟨rfl, rfl⟩
    | some f =>
        cases hmd : metaStore fn with
        | none => exact ⟨rfl, rfl⟩
        | some md =>
            rcases habs with h | h
            · rw [hms] at h; cases h
            · rw [hmd] at h; cases h
  · intro f md hms hmd
    unfold EngagementModel.load
    rw [hms, hmd]

/-- Witness for C9: a store missing the metadata artifact leaves the
initial state untouched and reports a failure. -/
theorem load_no_partial_restore_witness :
    (EngagementModel.initState.load (fun _ => some zeroRegressor)
        (fun _ => none) "xgboost_model_20240101_000000").1
      = EngagementModel.initState ∧
    ((EngagementModel.initState.load (fun _ => some zeroRegressor)
        (fun _ => none) "xgboost_model_20240101_000000").2).isSome :=
  (load_no_partial_restore EngagementModel.initState
      (fun _ => some zeroRegressor) (fun _ => none)
      "xgboost_model_20240101_000000").1 (Or.inr rfl)

/-! ## C10: the feature-pipeline load returns a boolean and never raises -/

/-- C10: `FeatureEngineering.load` is a total function into a
state/boolean pair (it never raises): it returns `true` exactly when the
artifact loads, `false` on any failure — a single collapsed failure value,
so causes are indistinguishable — and on `false` the state is unchanged,
so an unfitted pipeline stays unfitted. -/
theorem fe_load_never_raises (fe : FeatureEngineering)
    (store : String → Option FEData) (filepath : String) :
    ((fe.load store filepath).2 = true ↔ (store filepath).isSome) ∧
    (store filepath = none → (fe.load store filepath).1 = fe) ∧
    (store filepath = none → fe.preprocessor = none →
        ((fe.load store filepath).1).preprocessor = none) := by
  refine ⟨?_, ?_, ?_⟩
  · unfold FeatureEngineering.load
    cases h : store filepath <;> simp [h]
  · intro h
    unfold FeatureEngineering.load
    rw [h]
  · intro h hp
    unfold FeatureEngineering.load
    rw [h]
    exact hp

/-- Witness for C10: loading from an empty store returns `false` and
leaves the unfitted initial pipeline unfitted. -/
theorem fe_load_never_raises_witness :
    (FeatureEngineering.initState.load (fun _ => none) "missing.joblib").1
      = FeatureEngineering.initState :=
  (fe_load_never_raises FeatureEngineering.initState (fun _ => none)
      "missing.joblib").2.1 rfl

/-! ## C4: transform before fit -/

/-- Counterexample to C4 as stated: on the unfitted pipeline, `transform`
does not yield a "not fitted" failure — it returns normally with the empty
frame `pd.DataFrame()` (feature_engineering.py lines 89-91), which is also
not a pass-through of the non-empty input frame. -/
theorem transform_unfitted_returns_empty :
    FeatureEngineering.initState.transform [("text_length", 5)] = some [] ∧
    (([] : Row) ≠ [("text_length", (5 : ℚ))]) :=
  ⟨rfl, by simp⟩

/-- C4 amended: calling `transform` before `fit` returns an empty feature
frame with a warning (a normal return, not a raised error and not a
pass-through of the input); the serving adapter never reaches that
condition: it checks whether the pipeline is fitted first and falls back
to the raw features with a warning. -/
theorem transform_unfitted_behavior (fe : FeatureEngineering) (df : Row)
    (h : fe.preprocessor = none) :
    fe.transform df = some [] ∧ serveFeatures fe df = fillna0 df := by
  constructor
  · unfold FeatureEngineering.transform
    rw [h]
  · unfold serveFeatures
    rw [h]

/-- Witness for C4 (amended): the unfitted initial pipeline on a concrete
frame. -/
theorem transform_unfitted_behavior_witness :
    FeatureEngineering.initState.transform [("text_length", 5)] = some [] ∧
    serveFeatures FeatureEngineering.initState [("text_length", 5)]
      = fillna0 [("text_length", 5)] :=
  transform_unfitted_behavior FeatureEngineering.initState
    [("text_length", 5)] rfl

/-! ## C2: confidence score bounds -/

/-- C2: for every model-metrics record, request input and prediction
triple, the confidence score of the normal computation path lies in
`[0.5, 0.95]`, and the fallback score used when the computation raises is
`0.7`, also inside `[0.5, 0.95]`.  The quantification covers every edge
case (zero followers, zero following, empty text, empty hashtags). -/
theorem confidence_score_bounds (ms : Metrics) (p : PostInput)
    (likes shares comments : ℚ) :
    1/2 ≤ confidence_score ms p likes shares comments ∧
    confidence_score ms p likes shares comments ≤ 19/20 ∧
    fallbackConfidence = 7/10 ∧
    1/2 ≤ fallbackConfidence ∧ fallbackConfidence ≤ 19/20 := by
  refine ⟨?_, ?_, rfl, by norm_num [fallbackConfidence],
    by norm_num [fallbackConfidence]⟩
  · exact le_max_left _ _
  · exact max_le (by norm_num) (min_le_left _ _)

/-! ## C1: serve-time column reconciliation -/

/-- Column lookup in a row built by pairing each name with a computed
value: a listed name finds its value. -/
theorem colVal_map_self (g : String → ℚ) (n : String) :
    ∀ l : List String, n ∈ l →
      colVal (l.map (fun m => (m, g m))) n = some (g n) := by
  intro l
  induction l with
  | nil => intro h; cases h
  | cons a l ih =>
      intro h
      by_cases ha : a = n
      · subst ha
        unfold colVal
        simp only [List.map_cons]
        rw [List.find?_cons_of_pos _ (by simp)]
        rfl
      · have hn : n ∈ l := (List.mem_cons.mp h).resolve_left fun he => ha he.symm
        unfold colVal
        simp only [List.map_cons]
        rw [List.find?_cons_of_neg _ (by simp [ha])]
        exact ih hn

/-- Column lookup distributes over row concatenation, first row wins. -/
theorem colVal_append (r₁ r₂ : Row) (n : String) :
    colVal (r₁ ++ r₂) n = (colVal r₁ n).or (colVal r₂ n) := by
  unfold colVal
  rw [List.find?_append]
  cases List.find? (fun p => p.1 = n) r₁ <;> simp

/-- After the zero-fill step every trained-with column is present, holding
the originally computed value when there was one and `0` otherwise. -/
theorem colVal_fillMissing (fn : List String) (r : Row) (n : String)
    (hn : n ∈ fn) :
    colVal (fillMissing fn r) n = some ((colVal r n).getD 0) := by
  unfold fillMissing
  rw [colVal_append]
  cases hc : colVal r n with
  | some v => simp
  | none =>
      have hmem : n ∈ fn.filter (fun m => (colVal r m).isNone) :=
        List.mem_filter.mpr ⟨hn, by simp [hc]⟩
      simp [colVal_map_self (fun _ => (0 : ℚ)) n _ hmem]

/-- C1: with a loaded model whose `feature_names` list is non-empty, the
reconciled frame passed to `predict` has exactly the `feature_names`
columns in the frozen order; a trained-with column keeps the computed
value when present and is zero-filled when absent; every column of the
result is a trained-with column (computed extras are dropped). -/
theorem reconcile_parity (fn : List String) (r : Row) (hne : fn ≠ []) :
    (reconcile_features (some fn) r).map Prod.fst = fn ∧
    (∀ n ∈ fn, colVal (reconcile_features (some fn) r) n
        = some ((colVal r n).getD 0)) ∧
    (∀ p ∈ reconcile_features (some fn) r, p.1 ∈ fn) := by
  have hrw : reconcile_features (some fn) r
      = fn.map (fun n => (n, (colVal (fillMissing fn r) n).getD 0)) := by
    simp only [reconcile_features, selectCols]
    rw [if_neg hne]
  refine ⟨?_, ?_, ?_⟩
  · rw [hrw]
    rw [List.map_map]
    exact List.map_id fn
  · intro n hn
    rw [hrw, colVal_map_self (fun m => (colVal (fillMissing fn r) m).getD 0) n fn hn,
      colVal_fillMissing fn r n hn]
    simp
  · intro p hp
    rw [hrw] at hp
    obtain ⟨n, hn, hpn⟩ := List.mem_map.mp hp
    rw [← hpn]
    exact hn

/-- Witness for C1: reconciliation of a concrete computed frame against a
concrete frozen feature list (one column present, one missing, one
extra). -/
theorem reconcile_parity_witness :
    (reconcile_features (some ["hour_of_day", "word_count"])
        [("word_count", 3), ("extra_col", 7)]).map Prod.fst
      = ["hour_of_day", "word_count"] ∧
    (∀ n ∈ ["hour_of_day", "word_count"],
      colVal (reconcile_features (some ["hour_of_day", "word_count"])
          [("word_count", 3), ("extra_col", 7)]) n
        = some ((colVal [("word_count", 3), ("extra_col", 7)] n).getD 0)) ∧
    (∀ p ∈ reconcile_features (some ["hour_of_day", "word_count"])
        [("word_count", 3), ("extra_col", 7)],
      p.1 ∈ ["hour_of_day", "word_count"]) :=
  reconcile_parity ["hour_of_day", "word_count"]
    [("word_count", 3), ("extra_col", 7)] (by simp)

/-! ## C6: recommend_post_time with hour/day features absent -/

/-- C6: whenever `hour_of_day` or `day_of_week` is absent from the
feature-name list, `recommend_post_time` returns the no-recommendation
result (`None` with a warning) — in particular it neither produces a
datetime nor raises. -/
theorem recommend_missing_features_noRec (f : Regressor) (row : List ℚ)
    (fc : List String) (now : NaiveTime)
    (h : "hour_of_day" ∉ fc ∨ "day_of_week" ∉ fc) :
    recommend_post_time f row fc now = .noRec := by
  unfold recommend_post_time
  rw [if_pos h]

/-- Witness for C6: a feature list without `hour_of_day`. -/
theorem recommend_missing_features_noRec_witness :
    recommend_post_time constRegressor [0] ["day_of_week"] ⟨0, 0⟩
      = .noRec :=
  recommend_missing_features_noRec constRegressor [0] ["day_of_week"] ⟨0, 0⟩
    (Or.inl (by decide))

/-! ## C5: successful recommendations -/

/-- Membership in the 168-combination grid is exactly the day/hour
bounds. -/
theorem mem_combos (d h : Nat) : (d, h) ∈ combos ↔ d < 7 ∧ h < 24 := by
  simp [combos]

/-- Invariant of the grid-search fold: when it completes with result `r`,
the best total never decreases, every visited combination evaluated
successfully to a total bounded by `r.1`, and `r` is either the initial
accumulator or the total/combination of some visited grid point. -/
theorem searchStep_foldlM_spec (f : Regressor) (row : List ℚ) (hi di : Nat) :
    ∀ (l : List (Nat × Nat)) (acc r : ℚ × Option (Nat × Nat)),
      l.foldlM (searchStep f row hi di) acc = some r →
      acc.1 ≤ r.1 ∧
      (∀ dh ∈ l, ∃ t, totalAt f row hi di dh = some t ∧ t ≤ r.1) ∧
      (r = acc ∨
        ∃ dh ∈ l, ∃ t, totalAt f row hi di dh = some t ∧ r = (t, some dh)) := by
  intro l
  induction l with
  | nil =>
      intro acc r h
      rw [List.foldlM_nil] at h
      have hra : acc = r := by simpa using h
      subst hra
      exact ⟨le_refl _, by simp, Or.inl rfl⟩
  | cons dh l ih =>
      intro acc r h
      rw [List.foldlM_cons] at h
      cases hs : searchStep f row hi di acc dh with
      | none => rw [hs] at h; simp at h
      | some acc' =>
          rw [hs] at h
          simp only [Option.bind_eq_bind, Option.some_bind] at h
          replace h : l.foldlM (searchStep f row hi di) acc' = some r := h
          unfold searchStep at hs
          cases ht : totalAt f row hi di dh with
          | none => rw [ht] at hs; cases hs
          | some t =>
              rw [ht] at hs
              have hacc' : (if acc.1 < t then (t, some dh) else acc) = acc' := by
                injection hs
              obtain ⟨h1, h2, h3⟩ := ih acc' r h
              have hacc1 : acc.1 ≤ acc'.1 := by
                rw [← hacc']
                by_cases hlt : acc.1 < t
                · simp [hlt]
                  exact le_of_lt hlt
                · simp [hlt]
              have ht_le : t ≤ acc'.1 := by
                rw [← hacc']
                by_cases hlt : acc.1 < t
                · simp [hlt]
                · simp [hlt]
                  exact le_of_not_lt hlt
              refine ⟨le_trans hacc1 h1, ?_, ?_⟩
              · intro dh' hdh'
                rcases List.mem_cons.mp hdh' with he | hm
                · subst he
                  exact ⟨t, ht, le_trans ht_le h1⟩
                · exact h2 dh' hm
              · rcases h3 with hre | ⟨dh', hdh', t', ht', hr⟩
                · subst hre
                  by_cases hlt : acc.1 < t
                  · right
                    refine ⟨dh, List.mem_cons_self dh l, t, ht, ?_⟩
                    rw [← hacc']
                    simp [hlt]
                  · left
                    rw [← hacc']
                    simp [hlt]
                · right
                  exact ⟨dh', List.mem_cons_of_mem dh hdh', t', ht', hr⟩

/-- On the true branch `days_ahead = 7`; on the false branch either
`days_ahead ≥ 1` or `days_ahead = 0` with the best hour still ahead
today. -/
theorem daysAhead_cases (now : NaiveTime) (bd bh : Nat) :
    1 ≤ daysAhead now bd bh ∨
      (daysAhead now bd bh = 0 ∧ now.hour < bh) := by
  unfold daysAhead
  simp only []
  by_cases hc : ((((bd : Int) - (now.wd : Int)) % 7).toNat = 0
      ∧ bh ≤ now.hour)
  · rw [if_pos hc]
    left
    norm_num
  · rw [if_neg hc]
    by_cases h0 : (((bd : Int) - (now.wd : Int)) % 7).toNat = 0
    · right
      refine ⟨h0, ?_⟩
      by_contra hnot
      exact hc ⟨h0, le_of_not_lt hnot⟩
    · left
      omega

/-- The recommended datetime is strictly in the future: the replace-and-add
arithmetic of line 425 always lands strictly after `now` (given a sane
second-of-day). -/
theorem mkRecommended_future (now : NaiveTime) (bd bh : Nat)
    (hsec : now.sec < 86400) :
    now.timeAbs < (mkRecommended now bd bh).timeAbs := by
  unfold mkRecommended NaiveTime.timeAbs
  simp only []
  rcases daysAhead_cases now bd bh with h1 | ⟨h0, hlt⟩
  · have : 86400 ≤ daysAhead now bd bh * 86400 := by omega
    omega
  · have hb : now.sec < bh * 3600 := by
      have := (Nat.div_lt_iff_lt_mul (show 0 < 3600 by norm_num)).mp hlt
      exact this
    omega

/-- C5: whenever `recommend_post_time` returns a datetime, the selected
combination came from the exhaustive 168-point grid (so day `< 7` and hour
`< 24`), its total predicted engagement is maximal among all successfully
evaluated grid points, the returned datetime is the replace-plus-rollover
conversion of that combination, and it is strictly later than the call
time. -/
theorem recommend_ok_spec (f : Regressor) (row : List ℚ) (fc : List String)
    (now t : NaiveTime) (hsec : now.sec < 86400)
    (h : recommend_post_time f row fc now = .ok t) :
    ∃ bd bh best, bd < 7 ∧ bh < 24 ∧
      totalAt f row (fc.indexOf "hour_of_day") (fc.indexOf "day_of_week")
          (bd, bh) = some best ∧
      (∀ d hr td, d < 7 → hr < 24 →
        totalAt f row (fc.indexOf "hour_of_day") (fc.indexOf "day_of_week")
            (d, hr) = some td → td ≤ best) ∧
      t = mkRecommended now bd bh ∧
      now.timeAbs < t.timeAbs := by
  unfold recommend_post_time at h
  by_cases h1 : "hour_of_day" ∉ fc ∨ "day_of_week" ∉ fc
  · rw [if_pos h1] at h
    cases h
  · rw [if_neg h1] at h
    simp only [] at h
    by_cases h2 : row.length ≤ fc.indexOf "hour_of_day"
        ∨ row.length ≤ fc.indexOf "day_of_week"
    · rw [if_pos h2] at h
      cases h
    · rw [if_neg h2] at h
      cases hs : searchBest f row (fc.indexOf "hour_of_day")
          (fc.indexOf "day_of_week") with
      | none => rw [hs] at h; cases h
      | some br =>
          rw [hs] at h
          obtain ⟨b, obest⟩ := br
          cases obest with
          | none => cases h
          | some bdh =>
              obtain ⟨bd, bh⟩ := bdh
              have ht : t = mkRecommended now bd bh := by
                cases h
                rfl
              unfold searchBest at hs
              obtain ⟨-, h2', h3'⟩ := searchStep_foldlM_spec f row
                (fc.indexOf "hour_of_day") (fc.indexOf "day_of_week")
                combos ((-1 : ℚ), none) (b, some (bd, bh)) hs
              rcases h3' with heq | ⟨dh, hdh, t', ht', hpair⟩
              · exact absurd heq (by simp)
              · have hdh_eq : dh = (bd, bh) ∧ t' = b := by
                  have h1p := congrArg Prod.fst hpair
                  have h2p := congrArg Prod.snd hpair
                  simp at h1p h2p
                  exact ⟨h2p.symm, h1p.symm⟩
                obtain ⟨hdh1, hdh2⟩ := hdh_eq
                subst hdh1
                subst hdh2
                obtain ⟨hbd, hbh⟩ := (mem_combos bd bh).mp hdh
                refine ⟨bd, bh, t', hbd, hbh, ht', ?_, ht, ?_⟩
                · intro d hr td hd7 hr24 htd
                  obtain ⟨t'', ht'', hle⟩ :=
                    h2' (d, hr) ((mem_combos d hr).mpr ⟨hd7, hr24⟩)
                  rw [htd] at ht''
                  cases ht''
                  exact hle
                · rw [ht]
                  exact mkRecommended_future now bd bh hsec

/-- The constant regressor evaluates every grid point to total `3`. -/
theorem totalAt_const (row : List ℚ) (hi di : Nat) (dh : Nat × Nat) :
    totalAt constRegressor row hi di dh = some 3 := by
  unfold totalAt constRegressor
  simp
  norm_num

/-- When no visited grid point strictly beats the accumulator, the fold
keeps it. -/
theorem foldlM_searchStep_keep (f : Regressor) (row : List ℚ) (hi di : Nat)
    (acc : ℚ × Option (Nat × Nat)) :
    ∀ l : List (Nat × Nat),
      (∀ dh ∈ l, ∃ t, totalAt f row hi di dh = some t ∧ ¬ acc.1 < t) →
      l.foldlM (searchStep f row hi di) acc = some acc := by
  intro l
  induction l with
  | nil => intro _; rfl
  | cons dh l ih =>
      intro h
      obtain ⟨t, ht, hlt⟩ := h dh (List.mem_cons_self dh l)
      rw [List.foldlM_cons]
      have hstep : searchStep f row hi di acc dh = some acc := by
        unfold searchStep
        rw [ht]
        simp [if_neg hlt]
      rw [hstep]
      simp only [Option.bind_eq_bind, Option.some_bind]
      exact ih (fun dh' hd => h dh' (List.mem_cons_of_mem dh hd))

/-- The first grid combination `(0, 0)` strictly beats the initial
`best_engagement = -1` under the constant regressor. -/
theorem step_first (row : List ℚ) (hi di : Nat) :
    searchStep constRegressor row hi di ((-1 : ℚ), none) (0, 0)
      = some bestAcc := by
  unfold searchStep
  rw [totalAt_const]
  show some (if ((-1 : ℚ), (none : Option (Nat × Nat))).1 < (3 : ℚ)
      then ((3 : ℚ), some ((0 : Nat), (0 : Nat)))
      else ((-1 : ℚ), (none : Option (Nat × Nat)))) = some bestAcc
  rw [if_pos (show ((-1 : ℚ), (none : Option (Nat × Nat))).1 < (3 : ℚ) by
    norm_num)]
  rfl

/-- After the first combination, no later grid point strictly beats the
constant total, so the fold keeps the accumulator. -/
theorem keep_rest (row : List ℚ) (hi di : Nat) (l : List (Nat × Nat)) :
    l.foldlM (searchStep constRegressor row hi di) bestAcc = some bestAcc :=
  foldlM_searchStep_keep constRegressor row hi di bestAcc l
    (fun dh _ => ⟨3, totalAt_const row hi di dh, by
      have hb : bestAcc.1 = 3 := rfl
      rw [hb]
      exact lt_irrefl (3 : ℚ)⟩)

/-- The grid search under the constant regressor selects the first
combination `(0, 0)` with total `3`. -/
theorem searchBest_const_eval (row : List ℚ) (hi di : Nat) :
    searchBest constRegressor row hi di = some bestAcc := by
  unfold searchBest
  have hc : combos = (0, 0) :: combos.tail := by rfl
  rw [hc, List.foldlM_cons, step_first]
  nth_rewrite 1 [← Option.pure_def]
  rw [pure_bind]
  exact keep_rest row hi di combos.tail

/-- Concrete run of `recommend_post_time` under the constant regressor:
called at the epoch instant (a Thursday, midnight), the winning
combination `(day 0, hour 0)` is Monday midnight, four days ahead. -/
theorem recommend_const_eval :
    recommend_post_time constRegressor [0, 0]
        ["hour_of_day", "day_of_week"] ⟨0, 0⟩ = .ok ⟨4, 0⟩ := by
  unfold recommend_post_time
  rw [if_neg (by decide)]
  simp only []
  rw [if_neg (by decide)]
  rw [searchBest_const_eval]
  show RecommendResult.ok (mkRecommended ⟨0, 0⟩ 0 0)
      = RecommendResult.ok ⟨4, 0⟩
  rw [show mkRecommended ⟨0, 0⟩ 0 0 = (⟨4, 0⟩ : NaiveTime) from by decide]

/-- Witness for C5: the success characterization applied to the concrete
run above. -/
theorem recommend_ok_spec_witness :
    ∃ bd bh best, bd < 7 ∧ bh < 24 ∧
      totalAt constRegressor [0, 0]
          ((["hour_of_day", "day_of_week"] : List String).indexOf "hour_of_day")
          ((["hour_of_day", "day_of_week"] : List String).indexOf "day_of_week")
          (bd, bh) = some best ∧
      (∀ d hr td, d < 7 → hr < 24 →
        totalAt constRegressor [0, 0]
            ((["hour_of_day", "day_of_week"] : List String).indexOf "hour_of_day")
            ((["hour_of_day", "day_of_week"] : List String).indexOf "day_of_week")
            (d, hr) = some td → td ≤ best) ∧
      (⟨4, 0⟩ : NaiveTime) = mkRecommended ⟨0, 0⟩ bd bh ∧
      NaiveTime.timeAbs ⟨0, 0⟩ < NaiveTime.timeAbs ⟨4, 0⟩ :=
  recommend_ok_spec constRegressor [0, 0] ["hour_of_day", "day_of_week"]
    ⟨0, 0⟩ ⟨4, 0⟩ (by norm_num) recommend_const_eval

end SocialEngageAI
